import Mathlib

/-!
Shallow embedding of the Stock-Analyzer repository (src/utils.py and
src/database.py) and proofs about the claims of its specification.

Conventions of the embedding:

* Prices and percentage returns are exact rationals (ℚ); NumPy/Pandas float
  arithmetic is modelled exactly except for rounding, which no claim concerns.
* A value of a Pandas float column is modelled by `FV`: either a finite
  rational `FV.fin q`, a signed infinity `FV.inf pos` (the result of
  dividing a nonzero number by zero), or `FV.nan` (the result of `0/0`
  and of `pct_change` at the first row).
* `datetime` values are modelled as integers (only their ordering matters);
  `datetime.now()` and the derived "January 1 of the current year" are
  explicit parameters, since they are effects of the Python code.
* `np.sqrt` is modelled by `Real.sqrt`; every quantity under a square root
  is an exact rational, so the metrics that involve square roots
  (`volatility`, `sharpe_ratio`) take values in ℝ.
* The SQLite tables of src/database.py are modelled as lists of rows in
  insertion order; the surrogate autoincrement `id` columns are omitted
  since no claim concerns them.  Each database operation receives a
  parameter `conn : Except String Unit` modelling the outcome of
  `get_connection()`/statement execution: `.error e` means the storage
  layer raised an exception, in which case the Python `except` branch
  returns the documented safe default.
-/

namespace StockAnalyzer

/-- A Pandas float cell: finite rational, signed infinity, or NaN. -/
inductive FV where
  | fin (q : ℚ)
  | inf (pos : Bool)
  | nan
deriving DecidableEq

/-- True exactly on NaN (what `dropna`/`skipna` removes). -/
def FV.isNan : FV → Bool
  | .nan => true
  | _ => false

/-- True exactly on finite values. -/
def FV.isFin : FV → Bool
  | .fin _ => true
  | _ => false

/-- The rational carried by a finite value (junk 0 otherwise). -/
def FV.toQ : FV → ℚ
  | .fin q => q
  | _ => 0

/-- One cell of `df["Close"].pct_change() * 100`: the percentage change from
`prev` to `cur`, with IEEE semantics when `prev = 0` (`cur/0` is a signed
infinity for `cur ≠ 0` and NaN for `cur = 0`; the later `- 1` and `* 100`
preserve infinities and NaN). -/
def pctChange100 (prev cur : ℚ) : FV :=
  if prev = 0 then (if cur = 0 then FV.nan else FV.inf (decide (0 < cur)))
  else FV.fin ((cur - prev) / prev * 100)

/-- The value `((last / base) - 1) * 100`, the return between two close prices as the
source computes it for the monthly / YTD / annual metrics, again with IEEE
semantics for a zero denominator. -/
def retPct (base last : ℚ) : FV :=
  if base = 0 then (if last = 0 then FV.nan else FV.inf (decide (0 < last)))
  else FV.fin ((last / base - 1) * 100)

/-- The column `df["daily_return"] = df["Close"].pct_change() * 100`:
NaN at the first row, then the percentage change between consecutive
closes. -/
def dailyReturnCol : List ℚ → List FV
  | [] => []
  | c :: rest => FV.nan :: List.zipWith pctChange100 (c :: rest) rest

/-- The daily-return column with NaN dropped (Pandas `dropna`, and the data
`mean`/`std` operate on under their default `skipna=True`); infinities are
kept, as Pandas keeps them. -/
def retainedReturns (closes : List ℚ) : List FV :=
  (dailyReturnCol closes).filter (fun v => ! v.isNan)

/-- Mean of a list of rationals (`sum / count`; junk on `[]`, never used
there). -/
def qmean (l : List ℚ) : ℚ := l.sum / (l.length : ℚ)

/-- Sample variance with `ddof = 1` (the Pandas `std` default):
`Σ (x - mean)² / (n - 1)`. -/
def sampleVar (l : List ℚ) : ℚ :=
  (l.map (fun x => (x - qmean l) ^ 2)).sum / ((l.length : ℚ) - 1)

/-- The Pandas `df["daily_return"].std()` modelled as `Option ℚ`:
`some v` means the standard deviation is the real `Real.sqrt v` with `v`
the exact sample variance; `none` means the float result is NaN, which
happens when fewer than two non-NaN values remain (ddof = 1) or when an
infinity is among them. -/
def stdInfo (closes : List ℚ) : Option ℚ :=
  let r := retainedReturns closes
  if r.length ≤ 1 then none
  else if r.all FV.isFin then some (sampleVar (r.map FV.toQ)) else none

/-- The mean `df["daily_return"].mean()` over the retained values; faithful whenever
all retained values are finite, the only situation in which the source
consumes it (the `daily_std > 0` branch of the Sharpe ratio). -/
def meanDailyReturn (closes : List ℚ) : ℚ :=
  qmean ((retainedReturns closes).map FV.toQ)

/-- The value `df["daily_return"].std()` as a real number when it is not NaN. -/
noncomputable def stdDev (closes : List ℚ) : Option ℝ :=
  (stdInfo closes).map Real.sqrt

/-- The dictionary returned by `calculate_performance_metrics`. -/
structure Metrics where
  daily_returns : FV
  monthly_returns : FV
  ytd_returns : FV
  annual_returns : FV
  volatility : Option ℝ
  returns : List FV
  sharpe_ratio : ℝ

/-- Embedding of `calculate_performance_metrics` of src/utils.py.  `startOfYear` is the
integer date standing for `datetime(current_year, 1, 1)`; a bar is a pair
(date, close).  `volatility : Option ℝ` uses `none` for the float NaN. -/
noncomputable def calculate_performance_metrics
    (startOfYear : ℤ) (bars : List (ℤ × ℚ)) : Metrics :=
  let closes := bars.map Prod.snd
  let n := bars.length
  let ytdBars := bars.filter (fun b => decide (startOfYear ≤ b.1))
  { daily_returns :=
      if 1 < n then (dailyReturnCol closes).getLastD (FV.fin 0) else FV.fin 0
    monthly_returns :=
      if 30 ≤ n then retPct (closes.getD (n - 30) 0) (closes.getD (n - 1) 0)
      else retPct (closes.getD 0 0) (closes.getD (n - 1) 0)
    ytd_returns :=
      if ytdBars.isEmpty then FV.fin 0
      else retPct ((ytdBars.map Prod.snd).getD 0 0)
        ((ytdBars.map Prod.snd).getD (ytdBars.length - 1) 0)
    annual_returns :=
      if 252 < n then retPct (closes.getD (n - 252) 0) (closes.getD (n - 1) 0)
      else retPct (closes.getD 0 0) (closes.getD (n - 1) 0)
    volatility := (stdInfo closes).map (fun v => Real.sqrt v * Real.sqrt 252)
    returns := retainedReturns closes
    sharpe_ratio :=
      match stdInfo closes with
      | some v =>
          if 0 < v then ((meanDailyReturn closes : ℚ) : ℝ) / Real.sqrt v * Real.sqrt 252
          else 0
      | none => 0 }

/-! ### src/database.py: tables, rows and CRUD operations -/

/-- A row of the `watchlists` table (surrogate `id` omitted). -/
structure WatchlistRow where
  user_id : String
  ticker : String
  added_at : ℤ
deriving DecidableEq

/-- A row of the `search_history` table (surrogate `id` omitted). -/
structure SearchRow where
  user_id : String
  ticker : String
  searched_at : ℤ
deriving DecidableEq

/-- A row of the `user_preferences` table (surrogate `id` omitted;
`user_id` carries a UNIQUE constraint in the schema). -/
structure PrefRow where
  user_id : String
  default_ticker : String
  default_period : String
  theme : String
  show_ma50 : ℤ
  show_ma200 : ℤ
  updated_at : ℤ
deriving DecidableEq

/-- The SQLite database state: the three tables, rows in insertion order. -/
structure DB where
  watchlists : List WatchlistRow
  search_history : List SearchRow
  user_preferences : List PrefRow
deriving DecidableEq

/-- A value of a Python preferences dictionary: string or integer. -/
inductive PrefVal where
  | s (v : String)
  | i (v : ℤ)
deriving DecidableEq

/-- A Python dict as returned by the preference operations: keys with
values, in insertion order. -/
abbrev PrefsDict := List (String × PrefVal)

/-- The `preferences` dict passed to `update_user_preferences` by app.py
(theme, default_ticker, default_period, show_ma50, show_ma200). -/
structure PrefUpdate where
  theme : String
  default_ticker : String
  default_period : String
  show_ma50 : ℤ
  show_ma200 : ℤ
deriving DecidableEq

/-- Embedding of `get_watchlist`: tickers of the user watchlist rows; `[]` when the
storage layer raises. -/
def get_watchlist (conn : Except String Unit) (user_id : String)
    (db : DB) : List String :=
  match conn with
  | .error _ => []
  | .ok _ => (db.watchlists.filter (fun r => r.user_id == user_id)).map
      (fun r => r.ticker)

/-- Embedding of `add_to_watchlist`: insert-if-absent keyed on (user_id, ticker);
returns the new database state and the Python return value (`True` iff a
row was inserted; `False` on a duplicate or a storage failure). -/
def add_to_watchlist (conn : Except String Unit) (ticker user_id : String)
    (now : ℤ) (db : DB) : DB × Bool :=
  match conn with
  | .error _ => (db, false)
  | .ok _ =>
      if db.watchlists.any (fun r => r.user_id == user_id && r.ticker == ticker) then
        (db, false)
      else
        ({ db with watchlists := db.watchlists ++ [⟨user_id, ticker, now⟩] }, true)

/-- Embedding of `remove_from_watchlist`: delete every row of the (user_id, ticker)
pair; `False` (and no change) on storage failure. -/
def remove_from_watchlist (conn : Except String Unit) (ticker user_id : String)
    (db : DB) : DB × Bool :=
  match conn with
  | .error _ => (db, false)
  | .ok _ =>
      ({ db with watchlists :=
                   db.watchlists.filter
                     (fun r => ! (r.user_id == user_id && r.ticker == ticker)) },
       true)

/-- Embedding of `add_to_search_history`: always append a row; `False` (and no change)
on storage failure. -/
def add_to_search_history (conn : Except String Unit) (ticker user_id : String)
    (now : ℤ) (db : DB) : DB × Bool :=
  match conn with
  | .error _ => (db, false)
  | .ok _ =>
      ({ db with search_history := db.search_history ++ [⟨user_id, ticker, now⟩] }, true)

/-- Embedding of `get_recent_searches`: the user rows ordered by `searched_at`
descending, truncated to `limit`, as (ticker, searched_at) pairs; `[]` on
storage failure. -/
def get_recent_searches (conn : Except String Unit) (user_id : String)
    (limit : ℕ) (db : DB) : List (String × ℤ) :=
  match conn with
  | .error _ => []
  | .ok _ =>
      (((db.search_history.filter (fun r => r.user_id == user_id)).mergeSort
          (fun a b => decide (b.searched_at ≤ a.searched_at))).take limit).map
        (fun r => (r.ticker, r.searched_at))

/-- The default preferences row `get_user_preferences` inserts when the
user has none (column defaults of the schema, `updated_at = now`). -/
def defaultPrefRow (user_id : String) (now : ℤ) : PrefRow :=
  ⟨user_id, "AAPL", "1 Year", "light", 1, 1, now⟩

/-- The `default_prefs` dict built (and returned) by
`get_user_preferences` when no row exists. -/
def defaultPrefsDict (user_id : String) (now : ℤ) : PrefsDict :=
  [("user_id", .s user_id), ("default_ticker", .s "AAPL"),
   ("default_period", .s "1 Year"), ("theme", .s "light"),
   ("show_ma50", .i 1), ("show_ma200", .i 1), ("updated_at", .i now)]

/-- The reduced defaults dict returned by the `except` branch of
`get_user_preferences` (no DB interaction, five keys). -/
def fallbackPrefsDict : PrefsDict :=
  [("default_ticker", .s "AAPL"), ("default_period", .s "1 Year"),
   ("theme", .s "light"), ("show_ma50", .i 1), ("show_ma200", .i 1)]

/-- The dict `{c.name: getattr(result, c.name)}` built from a found row. -/
def rowToDict (r : PrefRow) : PrefsDict :=
  [("user_id", .s r.user_id), ("default_ticker", .s r.default_ticker),
   ("default_period", .s r.default_period), ("theme", .s r.theme),
   ("show_ma50", .i r.show_ma50), ("show_ma200", .i r.show_ma200),
   ("updated_at", .i r.updated_at)]

/-- Embedding of `get_user_preferences`: return the first row of the user as a dict;
when none exists, insert the defaults and return them; on storage failure
return the reduced defaults dict with no database change. -/
def get_user_preferences (conn : Except String Unit) (now : ℤ)
    (user_id : String) (db : DB) : DB × PrefsDict :=
  match conn with
  | .error _ => (db, fallbackPrefsDict)
  | .ok _ =>
      match db.user_preferences.find? (fun r => r.user_id == user_id) with
      | some r => (db, rowToDict r)
      | none =>
          ({ db with user_preferences :=
              db.user_preferences ++ [defaultPrefRow user_id now] },
           defaultPrefsDict user_id now)

/-- Overwrite the settable columns of a row with the dict passed by
app.py, keeping `user_id` and `updated_at` (the UPDATE statement sets only
the dict keys). -/
def applyPrefs (p : PrefUpdate) (r : PrefRow) : PrefRow :=
  { r with theme := p.theme, default_ticker := p.default_ticker,
           default_period := p.default_period, show_ma50 := p.show_ma50,
           show_ma200 := p.show_ma200 }

/-- The row inserted by `update_user_preferences` when the user has no
row: the dict values plus `user_id`, with `updated_at` filled by the
column default (`now`). -/
def insertedPrefRow (p : PrefUpdate) (user_id : String) (now : ℤ) : PrefRow :=
  ⟨user_id, p.default_ticker, p.default_period, p.theme, p.show_ma50,
   p.show_ma200, now⟩

/-- Embedding of `update_user_preferences`: UPDATE the user row(s) in place when one
exists, INSERT a new row otherwise; `False` (and no change) on storage
failure. -/
def update_user_preferences (conn : Except String Unit) (p : PrefUpdate)
    (user_id : String) (now : ℤ) (db : DB) : DB × Bool :=
  match conn with
  | .error _ => (db, false)
  | .ok _ =>
      if db.user_preferences.any (fun r => r.user_id == user_id) then
        ({ db with user_preferences :=
                     db.user_preferences.map
                       (fun r => if r.user_id == user_id then applyPrefs p r else r) },
         true)
      else
        ({ db with user_preferences :=
            db.user_preferences ++ [insertedPrefRow p user_id now] }, true)

/-- Number of watchlist rows stored for a (user_id, ticker) pair. -/
def countWatchlist (db : DB) (user_id ticker : String) : ℕ :=
  (db.watchlists.filter (fun r => r.user_id == user_id && r.ticker == ticker)).length

/-- Number of preference rows stored for a user_id. -/
def countPrefs (db : DB) (user_id : String) : ℕ :=
  (db.user_preferences.filter (fun r => r.user_id == user_id)).length

/-! ### Helper lemmas -/

theorem calc_daily_returns (y : ℤ) (bars : List (ℤ × ℚ)) :
    Metrics.daily_returns (calculate_performance_metrics y bars)
      = (if 1 < bars.length
          then (dailyReturnCol (bars.map Prod.snd)).getLastD (FV.fin 0)
          else FV.fin 0) := rfl

theorem calc_monthly_returns (y : ℤ) (bars : List (ℤ × ℚ)) :
    Metrics.monthly_returns (calculate_performance_metrics y bars)
      = (if 30 ≤ bars.length
          then retPct ((bars.map Prod.snd).getD (bars.length - 30) 0)
            ((bars.map Prod.snd).getD (bars.length - 1) 0)
          else retPct ((bars.map Prod.snd).getD 0 0)
            ((bars.map Prod.snd).getD (bars.length - 1) 0)) := rfl

theorem calc_ytd_returns (y : ℤ) (bars : List (ℤ × ℚ)) :
    Metrics.ytd_returns (calculate_performance_metrics y bars)
      = (if (bars.filter (fun b => decide (y ≤ b.1))).isEmpty
          then FV.fin 0
          else retPct
            (((bars.filter (fun b => decide (y ≤ b.1))).map Prod.snd).getD 0 0)
            (((bars.filter (fun b => decide (y ≤ b.1))).map Prod.snd).getD
              ((bars.filter (fun b => decide (y ≤ b.1))).length - 1) 0)) := rfl

theorem calc_annual_returns (y : ℤ) (bars : List (ℤ × ℚ)) :
    Metrics.annual_returns (calculate_performance_metrics y bars)
      = (if 252 < bars.length
          then retPct ((bars.map Prod.snd).getD (bars.length - 252) 0)
            ((bars.map Prod.snd).getD (bars.length - 1) 0)
          else retPct ((bars.map Prod.snd).getD 0 0)
            ((bars.map Prod.snd).getD (bars.length - 1) 0)) := rfl

theorem calc_volatility (y : ℤ) (bars : List (ℤ × ℚ)) :
    Metrics.volatility (calculate_performance_metrics y bars)
      = (stdInfo (bars.map Prod.snd)).map (fun v => Real.sqrt v * Real.sqrt 252) := rfl

theorem calc_returns (y : ℤ) (bars : List (ℤ × ℚ)) :
    Metrics.returns (calculate_performance_metrics y bars)
      = retainedReturns (bars.map Prod.snd) := rfl

theorem calc_sharpe (y : ℤ) (bars : List (ℤ × ℚ)) :
    Metrics.sharpe_ratio (calculate_performance_metrics y bars)
      = (match stdInfo (bars.map Prod.snd) with
          | some v =>
              if 0 < v
              then ((meanDailyReturn (bars.map Prod.snd) : ℚ) : ℝ) / Real.sqrt v * Real.sqrt 252
              else 0
          | none => 0) := rfl

theorem pctChange100_eq_retPct (prev cur : ℚ) :
    pctChange100 prev cur = retPct prev cur := by
  unfold pctChange100 retPct
  by_cases h : prev = 0
  · simp [h]
  · rw [if_neg h, if_neg h]
    congr 1
    field_simp

theorem dailyReturnCol_getLast? : ∀ (l : List ℚ) (a b : ℚ),
    (dailyReturnCol (a :: b :: l)).getLast?
      = some (pctChange100 ((a :: b :: l).getD ((a :: b :: l).length - 2) 0)
          ((a :: b :: l).getD ((a :: b :: l).length - 1) 0))
  | [], a, b => rfl
  | c :: t, a, b => by
      have ih := dailyReturnCol_getLast? t b c
      simp only [dailyReturnCol, List.zipWith_cons_cons] at ih ⊢
      rw [List.getLast?_cons_cons] at ih
      rw [List.getLast?_cons_cons, List.getLast?_cons_cons]
      rw [ih]
      have h2 : (a :: b :: c :: t).length - 2 = ((b :: c :: t).length - 2) + 1 := by
        simp
      have h1 : (a :: b :: c :: t).length - 1 = ((b :: c :: t).length - 1) + 1 := by
        simp
      rw [h2, h1, List.getD_cons_succ, List.getD_cons_succ]

theorem length_filter_map_of_key_preserved (g : PrefRow → PrefRow)
    (hg : ∀ r, (g r).user_id = r.user_id) (v : String) (l : List PrefRow) :
    ((l.map g).filter (fun r => r.user_id == v)).length
      = (l.filter (fun r => r.user_id == v)).length := by
  induction l with
  | nil => rfl
  | cons r t ih =>
      simp only [List.map_cons, List.filter_cons, hg r]
      cases hr : (r.user_id == v) with
      | true => simp [ih]
      | false => simp [ih]

theorem countPrefs_pos_iff_any (db : DB) (u : String) :
    0 < countPrefs db u ↔
      db.user_preferences.any (fun r => r.user_id == u) = true := by
  simp only [countPrefs, List.length_pos, ne_eq, List.filter_eq_nil_iff,
    List.any_eq_true]
  push_neg
  simp

/-! ### Theorems for the claims about src/utils.py -/

/-- Claim C6: with at least 2 bars, `daily_returns` is
`(close[-1]/close[-2] - 1) * 100` (stated for a nonzero `close[-2]`, where
the value is finite), and with fewer than 2 bars it is 0. -/
theorem daily_return_spec (y : ℤ) (bars : List (ℤ × ℚ)) :
    (2 ≤ bars.length →
      (bars.map Prod.snd).getD (bars.length - 2) 0 ≠ 0 →
      Metrics.daily_returns (calculate_performance_metrics y bars)
        = FV.fin (((bars.map Prod.snd).getD (bars.length - 1) 0 /
            (bars.map Prod.snd).getD (bars.length - 2) 0 - 1) * 100)) ∧
    (bars.length < 2 →
      Metrics.daily_returns (calculate_performance_metrics y bars) = FV.fin 0) := by
  have hlen : (bars.map Prod.snd).length = bars.length := List.length_map _ _
  constructor
  · intro h2 hden
    rw [calc_daily_returns, if_pos (by omega)]
    obtain ⟨a, b, l, hcs⟩ : ∃ a b l, bars.map Prod.snd = a :: b :: l := by
      rcases hcs : bars.map Prod.snd with _ | ⟨a, rest⟩
      · rw [hcs] at hlen
        simp at hlen
        omega
      · rcases rest with _ | ⟨b, l⟩
        · rw [hcs] at hlen
          simp at hlen
          omega
        · exact ⟨a, b, l, rfl⟩
    rw [← hlen] at hden ⊢
    rw [hcs] at hden ⊢
    rw [List.getLastD_eq_getLast?, dailyReturnCol_getLast?, Option.getD_some,
      pctChange100_eq_retPct, retPct, if_neg hden]
  · intro h2
    rw [calc_daily_returns, if_neg (by omega)]

/-- Claim C6 witness: the spec worked example, close prices
[100, 102, 101, 105, 103], has daily return ((103/105) - 1) * 100 = -40/21
(about -1.90 percent). -/
theorem daily_return_spec_witness :
    (2 ≤ ([((0:ℤ), (100:ℚ)), (1, 102), (2, 101), (3, 105), (4, 103)]).length ∧
      (([((0:ℤ), (100:ℚ)), (1, 102), (2, 101), (3, 105), (4, 103)]).map Prod.snd).getD
          (([((0:ℤ), (100:ℚ)), (1, 102), (2, 101), (3, 105), (4, 103)]).length - 2) 0 ≠ 0) ∧
    Metrics.daily_returns (calculate_performance_metrics 0
        [((0:ℤ), (100:ℚ)), (1, 102), (2, 101), (3, 105), (4, 103)])
      = FV.fin (-40 / 21) := by
  refine ⟨⟨by decide, by decide⟩, ?_⟩
  rw [(daily_return_spec 0
    [((0:ℤ), (100:ℚ)), (1, 102), (2, 101), (3, 105), (4, 103)]).1
    (by decide) (by decide)]
  rw [show (([((0:ℤ), (100:ℚ)), (1, 102), (2, 101), (3, 105), (4, 103)]).map Prod.snd).getD
      (([((0:ℤ), (100:ℚ)), (1, 102), (2, 101), (3, 105), (4, 103)]).length - 1) 0 = 103 from by decide]
  rw [show (([((0:ℤ), (100:ℚ)), (1, 102), (2, 101), (3, 105), (4, 103)]).map Prod.snd).getD
      (([((0:ℤ), (100:ℚ)), (1, 102), (2, 101), (3, 105), (4, 103)]).length - 2) 0 = 105 from by decide]
  exact congrArg FV.fin (by norm_num)

/-- Claim C4: `monthly_returns` is `(close[-1]/close[-30] - 1) * 100` with
at least 30 bars and `(close[-1]/close[0] - 1) * 100` with fewer (stated
for nonzero denominators, where the value is finite). -/
theorem monthly_return_spec (y : ℤ) (bars : List (ℤ × ℚ)) :
    (30 ≤ bars.length →
      (bars.map Prod.snd).getD (bars.length - 30) 0 ≠ 0 →
      Metrics.monthly_returns (calculate_performance_metrics y bars)
        = FV.fin (((bars.map Prod.snd).getD (bars.length - 1) 0 /
            (bars.map Prod.snd).getD (bars.length - 30) 0 - 1) * 100)) ∧
    (1 ≤ bars.length → bars.length < 30 →
      (bars.map Prod.snd).getD 0 0 ≠ 0 →
      Metrics.monthly_returns (calculate_performance_metrics y bars)
        = FV.fin (((bars.map Prod.snd).getD (bars.length - 1) 0 /
            (bars.map Prod.snd).getD 0 0 - 1) * 100)) := by
  constructor
  · intro h30 hden
    rw [calc_monthly_returns, if_pos h30, retPct, if_neg hden]
  · intro h1 h30 hden
    rw [calc_monthly_returns, if_neg (by omega), retPct, if_neg hden]

/-- Claim C4 witness: a 40-bar series (39 bars at close 100, one at 110);
`monthly_returns` is ((110/100) - 1) * 100 = 10, the 30-bars-ago formula. -/
theorem monthly_return_spec_witness :
    (30 ≤ (List.replicate 39 ((0:ℤ), (100:ℚ)) ++ [((39:ℤ), (110:ℚ))]).length ∧
      ((List.replicate 39 ((0:ℤ), (100:ℚ)) ++ [((39:ℤ), (110:ℚ))]).map Prod.snd).getD
        ((List.replicate 39 ((0:ℤ), (100:ℚ)) ++ [((39:ℤ), (110:ℚ))]).length - 30) 0 ≠ 0) ∧
    Metrics.monthly_returns (calculate_performance_metrics 0
        (List.replicate 39 ((0:ℤ), (100:ℚ)) ++ [((39:ℤ), (110:ℚ))]))
      = FV.fin 10 := by
  refine ⟨⟨by decide, by decide⟩, ?_⟩
  rw [(monthly_return_spec 0
    (List.replicate 39 ((0:ℤ), (100:ℚ)) ++ [((39:ℤ), (110:ℚ))])).1
    (by decide) (by decide)]
  rw [show ((List.replicate 39 ((0:ℤ), (100:ℚ)) ++ [((39:ℤ), (110:ℚ))]).map Prod.snd).getD
      ((List.replicate 39 ((0:ℤ), (100:ℚ)) ++ [((39:ℤ), (110:ℚ))]).length - 1) 0 = 110 from by decide]
  rw [show ((List.replicate 39 ((0:ℤ), (100:ℚ)) ++ [((39:ℤ), (110:ℚ))]).map Prod.snd).getD
      ((List.replicate 39 ((0:ℤ), (100:ℚ)) ++ [((39:ℤ), (110:ℚ))]).length - 30) 0 = 100 from by decide]
  exact congrArg FV.fin (by norm_num)

/-- Claim C5: `ytd_returns` is computed on the sub-series of bars dated on
or after `startOfYear`; it is 0 when every bar is dated earlier, and
otherwise `(close[-1]/close[0] - 1) * 100` of the subset (stated for a
nonzero first subset close, where the value is finite). -/
theorem ytd_return_spec (y : ℤ) (bars : List (ℤ × ℚ)) :
    ((∀ b ∈ bars, b.1 < y) →
      Metrics.ytd_returns (calculate_performance_metrics y bars) = FV.fin 0) ∧
    (∀ sub, sub = bars.filter (fun b => decide (y ≤ b.1)) → sub ≠ [] →
      (sub.map Prod.snd).getD 0 0 ≠ 0 →
      Metrics.ytd_returns (calculate_performance_metrics y bars)
        = FV.fin (((sub.map Prod.snd).getD (sub.length - 1) 0 /
            (sub.map Prod.snd).getD 0 0 - 1) * 100)) := by
  constructor
  · intro hall
    have hnil : bars.filter (fun b => decide (y ≤ b.1)) = [] := by
      rw [List.filter_eq_nil_iff]
      intro b hb
      simpa using not_le.mpr (hall b hb)
    rw [calc_ytd_returns, hnil]
    simp
  · intro sub hsub hne hden
    subst hsub
    have hemp : (bars.filter (fun b => decide (y ≤ b.1))).isEmpty = false := by
      simpa [List.isEmpty_iff] using hne
    rw [calc_ytd_returns, hemp]
    simp only [Bool.false_eq_true, if_false]
    rw [retPct, if_neg hden]

/-- Claim C5 witness: with `startOfYear = 100` and both bars dated 0 and 1
(entirely before it), the YTD return is 0. -/
theorem ytd_return_spec_witness :
    (∀ b ∈ ([((0:ℤ), (5:ℚ)), (1, 6)] : List (ℤ × ℚ)), b.1 < 100) ∧
    Metrics.ytd_returns (calculate_performance_metrics 100
        [((0:ℤ), (5:ℚ)), (1, 6)]) = FV.fin 0 :=
  ⟨by decide, (ytd_return_spec 100 [((0:ℤ), (5:ℚ)), (1, 6)]).1 (by decide)⟩

/-- Claim C3: whenever the standard deviation of the daily percentage
returns is a finite positive real `s`, `sharpe_ratio` is
`mean / s * sqrt 252`; whenever it is 0 the ratio is 0 (and when it is NaN,
`NaN > 0` is false in Python, so the ratio is 0 as well). -/
theorem sharpe_ratio_spec (y : ℤ) (bars : List (ℤ × ℚ)) :
    (∀ s : ℝ, stdDev (bars.map Prod.snd) = some s → 0 < s →
      Metrics.sharpe_ratio (calculate_performance_metrics y bars)
        = ((meanDailyReturn (bars.map Prod.snd) : ℚ) : ℝ) / s * Real.sqrt 252) ∧
    (∀ s : ℝ, stdDev (bars.map Prod.snd) = some s → s = 0 →
      Metrics.sharpe_ratio (calculate_performance_metrics y bars) = 0) ∧
    (stdDev (bars.map Prod.snd) = none →
      Metrics.sharpe_ratio (calculate_performance_metrics y bars) = 0) := by
  refine ⟨?_, ?_, ?_⟩
  · intro s hs hpos
    rcases hv : stdInfo (bars.map Prod.snd) with _ | v
    · rw [stdDev, hv] at hs
      exact absurd hs (by simp)
    · rw [stdDev, hv] at hs
      have hsv : Real.sqrt v = s := by
        simpa using hs
      have hvpos : (0:ℚ) < v := by
        have := Real.sqrt_pos.mp (hsv ▸ hpos)
        exact_mod_cast this
      rw [calc_sharpe, hv]
      show (if 0 < v
          then ((meanDailyReturn (bars.map Prod.snd) : ℚ) : ℝ) / Real.sqrt v * Real.sqrt 252
          else 0)
        = ((meanDailyReturn (bars.map Prod.snd) : ℚ) : ℝ) / s * Real.sqrt 252
      rw [if_pos hvpos, hsv]
  · intro s hs hzero
    rcases hv : stdInfo (bars.map Prod.snd) with _ | v
    · rw [calc_sharpe, hv]
    · rw [stdDev, hv] at hs
      have hsv : Real.sqrt v = s := by
        simpa using hs
      have hvle : v ≤ 0 := by
        have : (v:ℝ) ≤ 0 := Real.sqrt_eq_zero'.mp (hzero ▸ hsv)
        exact_mod_cast this
      rw [calc_sharpe, hv]
      show (if 0 < v
          then ((meanDailyReturn (bars.map Prod.snd) : ℚ) : ℝ) / Real.sqrt v * Real.sqrt 252
          else 0) = 0
      rw [if_neg (not_lt.mpr hvle)]
  · intro hs
    have hv : stdInfo (bars.map Prod.snd) = none := by
      rcases h : stdInfo (bars.map Prod.snd) with _ | v
      · rfl
      · rw [stdDev, h] at hs
        exact absurd hs (by simp)
    rw [calc_sharpe, hv]

/-- Claim C3 witness: three bars at a constant close 1 have both daily
returns equal to 0, the standard deviation is 0, and the Sharpe ratio
is 0. -/
theorem sharpe_ratio_spec_witness :
    stdDev ([((0:ℤ), (1:ℚ)), (1, 1), (2, 1)].map Prod.snd) = some 0 ∧
    Metrics.sharpe_ratio (calculate_performance_metrics 0
        [((0:ℤ), (1:ℚ)), (1, 1), (2, 1)]) = 0 := by
  have h0 : stdInfo ([((0:ℤ), (1:ℚ)), (1, 1), (2, 1)].map Prod.snd) = some 0 := by
    norm_num [stdInfo, retainedReturns, dailyReturnCol, pctChange100, sampleVar,
      qmean, FV.isNan, FV.isFin, FV.toQ, List.filter, List.zipWith]
  have hs : stdDev ([((0:ℤ), (1:ℚ)), (1, 1), (2, 1)].map Prod.snd) = some 0 := by
    rw [stdDev, h0]
    simp
  exact ⟨hs, (sharpe_ratio_spec 0 [((0:ℤ), (1:ℚ)), (1, 1), (2, 1)]).2.1 0 hs rfl⟩

/-- Claim C1 counterexample: on the single-bar series [(0, 100)] the
volatility is NaN (`none` in the model), not 0: Pandas `std` of the single
NaN entry of the daily-return column is NaN with `ddof = 1`. -/
theorem single_bar_volatility_not_zero :
    Metrics.volatility (calculate_performance_metrics 0 [((0:ℤ), (100:ℚ))]) = none ∧
    Metrics.volatility (calculate_performance_metrics 0 [((0:ℤ), (100:ℚ))]) ≠ some 0 := by
  constructor
  · rfl
  · rw [show Metrics.volatility
        (calculate_performance_metrics 0 [((0:ℤ), (100:ℚ))]) = none from rfl]
    simp

/-- Claim C1 (amended): on a single-bar series with nonzero close, the
four return metrics and the Sharpe ratio are 0 and the returns vector is
empty, but the volatility is NaN (`none`), not 0. -/
theorem single_bar_metrics_amended (y d : ℤ) (c : ℚ) (hc : c ≠ 0) :
    Metrics.daily_returns (calculate_performance_metrics y [(d, c)]) = FV.fin 0 ∧
    Metrics.monthly_returns (calculate_performance_metrics y [(d, c)]) = FV.fin 0 ∧
    Metrics.ytd_returns (calculate_performance_metrics y [(d, c)]) = FV.fin 0 ∧
    Metrics.annual_returns (calculate_performance_metrics y [(d, c)]) = FV.fin 0 ∧
    Metrics.sharpe_ratio (calculate_performance_metrics y [(d, c)]) = 0 ∧
    Metrics.volatility (calculate_performance_metrics y [(d, c)]) = none ∧
    Metrics.returns (calculate_performance_metrics y [(d, c)]) = [] := by
  have hret : retPct c c = FV.fin 0 := by
    rw [retPct, if_neg hc, div_self hc]
    norm_num
  refine ⟨rfl, ?_, ?_, ?_, rfl, rfl, rfl⟩
  · rw [calc_monthly_returns, if_neg (by norm_num)]
    exact hret
  · rw [calc_ytd_returns]
    by_cases hyd : y ≤ d
    · rw [show ([(d, c)].filter (fun b => decide (y ≤ b.1))) = [(d, c)] from by
        simp [hyd]]
      exact hret
    · rw [show ([(d, c)].filter (fun b => decide (y ≤ b.1))) = [] from by
        simp [hyd]]
      rfl
  · rw [calc_annual_returns, if_neg (by norm_num)]
    exact hret

/-- Claim C1 witness at the concrete single bar [(0, 100)]. -/
theorem single_bar_metrics_amended_witness :
    ((100:ℚ) ≠ 0) ∧
    (Metrics.daily_returns (calculate_performance_metrics 0 [((0:ℤ), (100:ℚ))]) = FV.fin 0 ∧
      Metrics.monthly_returns (calculate_performance_metrics 0 [((0:ℤ), (100:ℚ))]) = FV.fin 0 ∧
      Metrics.ytd_returns (calculate_performance_metrics 0 [((0:ℤ), (100:ℚ))]) = FV.fin 0 ∧
      Metrics.annual_returns (calculate_performance_metrics 0 [((0:ℤ), (100:ℚ))]) = FV.fin 0 ∧
      Metrics.sharpe_ratio (calculate_performance_metrics 0 [((0:ℤ), (100:ℚ))]) = 0 ∧
      Metrics.volatility (calculate_performance_metrics 0 [((0:ℤ), (100:ℚ))]) = none ∧
      Metrics.returns (calculate_performance_metrics 0 [((0:ℤ), (100:ℚ))]) = []) :=
  ⟨by norm_num, single_bar_metrics_amended 0 0 100 (by norm_num)⟩

/-- Claim C2 counterexample: a 30-bar series whose oldest close (which is
close[-30]) is 0 makes `monthly_returns` equal to +infinity, not 0: the
division by zero is unguarded. -/
theorem monthly_return_zero_denominator_not_zero :
    Metrics.monthly_returns (calculate_performance_metrics 0
        (((0:ℤ), (0:ℚ)) :: List.replicate 29 ((0:ℤ), (1:ℚ)))) = FV.inf true ∧
    Metrics.monthly_returns (calculate_performance_metrics 0
        (((0:ℤ), (0:ℚ)) :: List.replicate 29 ((0:ℤ), (1:ℚ)))) ≠ FV.fin 0 := by
  constructor
  · decide
  · decide

/-- Claim C2 (amended): a zero denominator in the return-metric divisions
is not substituted by 0: with at least 30 bars and close[-30] = 0,
`monthly_returns` is a non-finite float (infinity or NaN) and in
particular differs from 0.  Only the Sharpe-ratio division is guarded. -/
theorem zero_denominator_amended (y : ℤ) (bars : List (ℤ × ℚ))
    (h30 : 30 ≤ bars.length)
    (hz : (bars.map Prod.snd).getD (bars.length - 30) 0 = 0) :
    FV.isFin (Metrics.monthly_returns (calculate_performance_metrics y bars)) = false ∧
    Metrics.monthly_returns (calculate_performance_metrics y bars) ≠ FV.fin 0 := by
  have h : Metrics.monthly_returns (calculate_performance_metrics y bars)
      = retPct 0 ((bars.map Prod.snd).getD (bars.length - 1) 0) := by
    rw [calc_monthly_returns, if_pos h30, hz]
  rw [h, retPct, if_pos rfl]
  by_cases hl : (bars.map Prod.snd).getD (bars.length - 1) 0 = 0
  · rw [if_pos hl]
    exact ⟨rfl, fun hcon => FV.noConfusion hcon⟩
  · rw [if_neg hl]
    exact ⟨rfl, fun hcon => FV.noConfusion hcon⟩

/-- Claim C2 witness at the concrete 30-bar series with close prices
0, 1, ..., 1. -/
theorem zero_denominator_amended_witness :
    (30 ≤ (((0:ℤ), (0:ℚ)) :: List.replicate 29 ((0:ℤ), (1:ℚ))).length ∧
      ((((0:ℤ), (0:ℚ)) :: List.replicate 29 ((0:ℤ), (1:ℚ))).map Prod.snd).getD
        ((((0:ℤ), (0:ℚ)) :: List.replicate 29 ((0:ℤ), (1:ℚ))).length - 30) 0 = 0) ∧
    (FV.isFin (Metrics.monthly_returns (calculate_performance_metrics 0
        (((0:ℤ), (0:ℚ)) :: List.replicate 29 ((0:ℤ), (1:ℚ))))) = false ∧
      Metrics.monthly_returns (calculate_performance_metrics 0
        (((0:ℤ), (0:ℚ)) :: List.replicate 29 ((0:ℤ), (1:ℚ)))) ≠ FV.fin 0) :=
  ⟨⟨by decide, by decide⟩, zero_denominator_amended 0
    (((0:ℤ), (0:ℚ)) :: List.replicate 29 ((0:ℤ), (1:ℚ))) (by decide) (by decide)⟩

/-! ### Theorems for the claims about src/database.py -/

/-- Claim C7: watchlist add is idempotent.  Starting from a state with no
row for the pair, the first `add_to_watchlist` leaves exactly one stored
row for (user_id, ticker); the second call with the same pair changes
nothing (it returns the same state with `False`). -/
theorem add_to_watchlist_idempotent (t u : String) (n1 n2 : ℤ) (db : DB)
    (h : countWatchlist db u t = 0) :
    countWatchlist (add_to_watchlist (.ok ()) t u n1 db).1 u t = 1 ∧
    add_to_watchlist (.ok ()) t u n2 (add_to_watchlist (.ok ()) t u n1 db).1
      = ((add_to_watchlist (.ok ()) t u n1 db).1, false) := by
  have hnil : db.watchlists.filter (fun r => r.user_id == u && r.ticker == t) = [] := by
    simpa [countWatchlist] using h
  have hany : db.watchlists.any (fun r => r.user_id == u && r.ticker == t) = false := by
    simp only [List.any_eq_false]
    intro r hr
    exact List.filter_eq_nil_iff.mp hnil r hr
  have h1 : (add_to_watchlist (.ok ()) t u n1 db).1
      = { db with watchlists := db.watchlists ++ [⟨u, t, n1⟩] } := by
    simp [add_to_watchlist, hany]
  constructor
  · rw [h1]
    simp [countWatchlist, List.filter_append, hnil]
  · rw [h1]
    simp [add_to_watchlist, List.any_append]

/-- Claim C7 witness at a concrete input. -/
theorem add_to_watchlist_idempotent_witness :
    countWatchlist ⟨[], [], []⟩ "default_user" "AAPL" = 0 ∧
    (countWatchlist
        (add_to_watchlist (.ok ()) "AAPL" "default_user" 1 ⟨[], [], []⟩).1
        "default_user" "AAPL" = 1 ∧
      add_to_watchlist (.ok ()) "AAPL" "default_user" 2
          (add_to_watchlist (.ok ()) "AAPL" "default_user" 1 ⟨[], [], []⟩).1
        = ((add_to_watchlist (.ok ()) "AAPL" "default_user" 1 ⟨[], [], []⟩).1,
           false)) :=
  ⟨rfl, add_to_watchlist_idempotent "AAPL" "default_user" 1 2 ⟨[], [], []⟩ rfl⟩

/-- Claim C8: `update_user_preferences` preserves the at-most-one-row-per-
user invariant; with a row present the table size is unchanged (overwrite
in place), and a row is inserted exactly when none exists. -/
theorem update_user_preferences_unique_invariant (p : PrefUpdate) (u : String)
    (now : ℤ) (db : DB) (h : ∀ v, countPrefs db v ≤ 1) :
    (∀ v, countPrefs (update_user_preferences (.ok ()) p u now db).1 v ≤ 1) ∧
    (0 < countPrefs db u →
      (update_user_preferences (.ok ()) p u now db).1.user_preferences.length
        = db.user_preferences.length) ∧
    (countPrefs db u = 0 →
      (update_user_preferences (.ok ()) p u now db).1.user_preferences.length
        = db.user_preferences.length + 1) := by
  by_cases hex : db.user_preferences.any (fun r => r.user_id == u) = true
  · have hkey : ∀ r : PrefRow,
        ((if r.user_id == u then applyPrefs p r else r) : PrefRow).user_id
          = r.user_id := by
      intro r
      by_cases hr : (r.user_id == u) = true
      · simp [hr, applyPrefs]
      · simp [hr]
    have hstep : (update_user_preferences (.ok ()) p u now db).1
        = { db with user_preferences := db.user_preferences.map (fun r => if r.user_id == u then applyPrefs p r else r) } := by
      simp only [update_user_preferences, hex, if_true]
    refine ⟨?_, ?_, ?_⟩
    · intro v
      rw [hstep]
      show ((db.user_preferences.map
          (fun r => if r.user_id == u then applyPrefs p r else r)).filter
            (fun r => r.user_id == v)).length ≤ 1
      rw [length_filter_map_of_key_preserved _ hkey v]
      exact h v
    · intro _
      rw [hstep]
      exact List.length_map _ _
    · intro hzero
      exact absurd ((countPrefs_pos_iff_any db u).mpr hex)
        (by simp [hzero])
  · have hzero : countPrefs db u = 0 := by
      by_contra hc
      exact hex ((countPrefs_pos_iff_any db u).mp (Nat.pos_of_ne_zero hc))
    have hnil : db.user_preferences.filter (fun r => r.user_id == u) = [] :=
      List.length_eq_zero.mp hzero
    have hstep : (update_user_preferences (.ok ()) p u now db).1
        = { db with user_preferences :=
              db.user_preferences ++ [insertedPrefRow p u now] } := by
      simp only [update_user_preferences, hex, if_false, Bool.not_eq_true] at *
      simp [hex]
    refine ⟨?_, ?_, ?_⟩
    · intro v
      rw [hstep]
      show ((db.user_preferences ++ [insertedPrefRow p u now]).filter
          (fun r => r.user_id == v)).length ≤ 1
      rw [List.filter_append, List.length_append]
      by_cases hv : ((insertedPrefRow p u now).user_id == v) = true
      · have huv : u = v := by simpa [insertedPrefRow] using hv
        have hn : (db.user_preferences.filter (fun r => r.user_id == v)) = [] :=
          huv ▸ hnil
        simp [hn, List.filter, hv]
      · have hf : ([insertedPrefRow p u now].filter (fun r => r.user_id == v)) = [] := by
          simp [List.filter, hv]
        simp only [hf, List.length_nil, Nat.add_zero]
        exact h v
    · intro hpos
      exact absurd ((countPrefs_pos_iff_any db u).mp hpos) hex
    · intro _
      rw [hstep]
      simp

/-- Claim C8 witness at a concrete input. -/
theorem update_user_preferences_unique_invariant_witness :
    (∀ v, countPrefs ⟨[], [], [defaultPrefRow "default_user" 0]⟩ v ≤ 1) ∧
    ((∀ v, countPrefs
        (update_user_preferences (.ok ()) ⟨"dark", "MSFT", "6 Months", 1, 0⟩
          "default_user" 3 ⟨[], [], [defaultPrefRow "default_user" 0]⟩).1 v ≤ 1) ∧
      (0 < countPrefs ⟨[], [], [defaultPrefRow "default_user" 0]⟩ "default_user" →
        (update_user_preferences (.ok ()) ⟨"dark", "MSFT", "6 Months", 1, 0⟩
          "default_user" 3
          ⟨[], [], [defaultPrefRow "default_user" 0]⟩).1.user_preferences.length
          = 1) ∧
      (countPrefs ⟨[], [], [defaultPrefRow "default_user" 0]⟩ "default_user" = 0 →
        (update_user_preferences (.ok ()) ⟨"dark", "MSFT", "6 Months", 1, 0⟩
          "default_user" 3
          ⟨[], [], [defaultPrefRow "default_user" 0]⟩).1.user_preferences.length
          = 2)) := by
  have hinv : ∀ v, countPrefs ⟨[], [], [defaultPrefRow "default_user" 0]⟩ v ≤ 1 := by
    intro v
    simp only [countPrefs, defaultPrefRow]
    cases hv : (("default_user" : String) == v) <;> simp [List.filter, hv]
  exact ⟨hinv, update_user_preferences_unique_invariant
    ⟨"dark", "MSFT", "6 Months", 1, 0⟩ "default_user" 3
    ⟨[], [], [defaultPrefRow "default_user" 0]⟩ hinv⟩

/-- Claim C9: when the storage layer raises, every CRUD operation returns
its safe default (empty list, `False`, or the reduced defaults dict) and
leaves the database unchanged. -/
theorem storage_failure_safe_defaults (e : String) (u t : String) (now : ℤ)
    (db : DB) (limit : ℕ) (p : PrefUpdate) :
    get_watchlist (.error e) u db = [] ∧
    add_to_watchlist (.error e) t u now db = (db, false) ∧
    remove_from_watchlist (.error e) t u db = (db, false) ∧
    add_to_search_history (.error e) t u now db = (db, false) ∧
    get_recent_searches (.error e) u limit db = [] ∧
    get_user_preferences (.error e) now u db = (db, fallbackPrefsDict) ∧
    update_user_preferences (.error e) p u now db = (db, false) :=
  ⟨rfl, rfl, rfl, rfl, rfl, rfl, rfl⟩

/-- Claim C10: for a user with no stored row, `get_user_preferences` is
not read-only: it inserts the default row as a side effect, returns the
default dict, and a subsequent lookup finds the row. -/
theorem get_user_preferences_inserts_default (now : ℤ) (u : String) (db : DB)
    (h : db.user_preferences.find? (fun r => r.user_id == u) = none) :
    (get_user_preferences (.ok ()) now u db).2 = defaultPrefsDict u now ∧
    (get_user_preferences (.ok ()) now u db).1.user_preferences
      = db.user_preferences ++ [defaultPrefRow u now] ∧
    List.find? (fun r => r.user_id == u)
        (get_user_preferences (.ok ()) now u db).1.user_preferences
      = some (defaultPrefRow u now) := by
  refine ⟨by simp [get_user_preferences, h], by simp [get_user_preferences, h], ?_⟩
  simp only [get_user_preferences, h]
  rw [List.find?_append, h]
  simp [defaultPrefRow]

/-- Claim C10 witness at a concrete input. -/
theorem get_user_preferences_inserts_default_witness :
    (get_user_preferences (.ok ()) 7 "default_user" ⟨[], [], []⟩).2
        = defaultPrefsDict "default_user" 7 ∧
      (get_user_preferences (.ok ()) 7 "default_user" ⟨[], [], []⟩).1.user_preferences
        = [] ++ [defaultPrefRow "default_user" 7] ∧
      List.find? (fun r => r.user_id == "default_user")
          (get_user_preferences (.ok ()) 7 "default_user"
            ⟨[], [], []⟩).1.user_preferences
        = some (defaultPrefRow "default_user" 7) :=
  get_user_preferences_inserts_default 7 "default_user" ⟨[], [], []⟩ rfl

end StockAnalyzer
